import Mathlib

set_option maxRecDepth 100000

/-!
Verification of the NexOps guarded smart-contract synthesis service.

This file gives a shallow embedding, in Lean 4, of the deterministic core of
the repository (`src/services/scoring.py`, `src/services/anti_pattern_detectors.py`,
`src/services/pipeline.py`, `src/services/dsl_lint.py`, `src/services/repair_agent.py`,
`src/services/pipeline_engine.py`, `src/utils/cashscript_ast.py`) and proves or
refutes the specification claims about it.  Python machine integers are modelled
as `Int`/`Nat` (no overflow is reachable in the scoring arithmetic), Python
dicts keyed in insertion order as association lists, Python sets of strings as
deduplicated lists or `Finset`s, and the external LLM/compiler collaborators as
explicit function parameters.
-/

namespace NexOps

/-! ## Scoring engine (`src/services/scoring.py`) -/

/-- `Severity` enum from `src/models.py` (lines 117-122). -/
inductive Severity where
  | CRITICAL
  | HIGH
  | MEDIUM
  | LOW
  | INFO
deriving DecidableEq, Repr

/-- `AuditIssue` from `src/models.py` (lines 124-131), restricted to the two
fields the scoring engine reads (`rule_id`, `severity`); `title`, `line`,
`description`, `recommendation`, `can_fix` are carried verbatim by scoring and
never inspected, so they are omitted from the embedding. -/
structure AuditIssue where
  rule_id : String
  severity : Severity
deriving DecidableEq, Repr

/-- `DET_PENALTIES` table, `scoring.py` lines 11-17. -/
def DET_PENALTIES : Severity → Int
  | .CRITICAL => 20
  | .HIGH => 10
  | .MEDIUM => 5
  | .LOW => 2
  | .INFO => 0

/-- `DET_MAX`, `scoring.py` line 18. -/
def DET_MAX : Int := 70

/-- `SEMANTIC_CATEGORY_MAP`, `scoring.py` lines 29-35, as an association list in
source order. -/
def SEMANTIC_CATEGORY_MAP : List (String × Int) :=
  [("none", 20),
   ("minor_design_risk", 15),
   ("moderate_logic_risk", 10),
   ("major_protocol_flaw", 5),
   ("funds_unspendable", 0)]

/-- `ALLOWED_CATEGORIES`, `scoring.py` line 37. -/
def ALLOWED_CATEGORIES : List String := SEMANTIC_CATEGORY_MAP.map Prod.fst

/-- `DISPLAY_FLOOR`, `scoring.py` line 40. -/
def DISPLAY_FLOOR : Int := 20

/-- Python's `str.isspace` characters relevant to `str.strip()`. -/
def isPySpace (c : Char) : Bool :=
  c = ' ' || c = '\t' || c = '\n' || c = '\r' || c = '\x0b' || c = '\x0c'

/-- Python `str.strip()`. -/
def pyStrip (s : String) : String :=
  String.mk (((s.toList.dropWhile isPySpace).reverse.dropWhile isPySpace).reverse)

/-- Python `str.lower()` (the category strings involved are ASCII). -/
def pyLower (s : String) : String :=
  String.mk (s.toList.map Char.toLower)

/-- One step of the dedup-by-`rule_id` loop of `calculate_audit_report`
(`scoring.py` lines 79-87): the dict `unique_issues_map` keyed in insertion
order is an association list; an existing entry is replaced in place when the
new issue's penalty is strictly higher. -/
def updateUnique : List AuditIssue → AuditIssue → List AuditIssue
  | [], issue => [issue]
  | existing :: rest, issue =>
    if existing.rule_id = issue.rule_id then
      (if DET_PENALTIES issue.severity > DET_PENALTIES existing.severity then issue
       else existing) :: rest
    else existing :: updateUnique rest issue

/-- `deduped_issues` (`scoring.py` lines 79-89): deduplication by `rule_id`,
keeping the highest-penalty instance, preserving first-insertion order. -/
def dedupeIssues (issues : List AuditIssue) : List AuditIssue :=
  issues.foldl updateUnique []

/-- Category normalisation of `calculate_audit_report`, `scoring.py`
lines 106-108: falsy (empty) input becomes `"none"`; otherwise
strip-then-lowercase; anything outside `ALLOWED_CATEGORIES` becomes `"none"`. -/
def normaliseCategory (semantic_category : String) : String :=
  let n := if semantic_category = "" then "none" else pyLower (pyStrip semantic_category)
  if ALLOWED_CATEGORIES.contains n then n else "none"

/-- Semantic bucket of `calculate_audit_report`, `scoring.py` lines 110-116. -/
def semanticScore (semantic_category : String) (business_logic_score : Int) : Int :=
  let n := normaliseCategory semantic_category
  if n = "funds_unspendable" then 0
  else
    let category_pts := ((SEMANTIC_CATEGORY_MAP.lookup n).getD 0)
    let biz_pts := max 0 (min 10 business_logic_score)
    min 30 (category_pts + biz_pts)

/-- Risk-level step function of `calculate_audit_report`, `scoring.py`
lines 130-139. -/
def riskLevel (display_score : Int) : String :=
  if display_score ≥ 90 then "SAFE"
  else if display_score ≥ 75 then "LOW"
  else if display_score ≥ 60 then "MEDIUM"
  else if display_score ≥ 40 then "HIGH"
  else "CRITICAL"

/-- `AuditMetadata` from `src/models.py` lines 133-138; the SHA-256
`contract_hash` is outside the scope of the embedding and omitted. -/
structure AuditMetadata where
  compile_success : Bool
  dsl_passed : Bool
  structural_score : ℚ
  semantic_score : Int
deriving DecidableEq, Repr

/-- `AuditReport` from `src/models.py` lines 145-156. -/
structure AuditReport where
  deterministic_score : Int
  semantic_score : Int
  total_score : Int
  risk_level : String
  semantic_category : String
  deployment_allowed : Bool
  issues : List AuditIssue
  total_high : Int
  total_medium : Int
  total_low : Int
  metadata : AuditMetadata
deriving DecidableEq, Repr

/-- `calculate_audit_report`, `scoring.py` lines 43-161. -/
def calculate_audit_report (issues : List AuditIssue) (compile_success : Bool)
    (dsl_passed : Bool) (structural_score : ℚ) (semantic_category : String)
    (business_logic_score : Int) : AuditReport :=
  let deduped_issues := dedupeIssues issues
  let total_high : Int :=
    (deduped_issues.filter (fun i => i.severity = .HIGH || i.severity = .CRITICAL)).length
  let total_medium : Int := (deduped_issues.filter (fun i => i.severity = .MEDIUM)).length
  let total_low : Int := (deduped_issues.filter (fun i => i.severity = .LOW)).length
  let det_score : Int :=
    if compile_success = false then 0
    else max 0 (DET_MAX - (deduped_issues.map (fun i => DET_PENALTIES i.severity)).sum)
  let semantic_score := semanticScore semantic_category business_logic_score
  let total_score := det_score + semantic_score
  let display_score := max DISPLAY_FLOOR total_score
  let deployment_allowed :=
    decide (det_score ≥ 50) && decide (semantic_score > 0) && decide (display_score ≥ 75)
  { deterministic_score := det_score
    semantic_score := semantic_score
    total_score := display_score
    risk_level := riskLevel display_score
    semantic_category := normaliseCategory semantic_category
    deployment_allowed := deployment_allowed
    issues := deduped_issues
    total_high := total_high
    total_medium := total_medium
    total_low := total_low
    metadata :=
      { compile_success := compile_success
        dsl_passed := dsl_passed
        structural_score := structural_score
        semantic_score := semantic_score } }

/-! ## Anti-pattern detector registry (`src/services/anti_pattern_detectors.py`)
and toll-gate structural score (`src/services/pipeline.py`, `Phase3.validate`) -/

/-- `UnvalidatedPositionDetector.id`, `anti_pattern_detectors.py` line 136. -/
def UnvalidatedPositionDetector_id : String := "unvalidated_position"

/-- `HardcodedInputIndexDetector.id`, `anti_pattern_detectors.py` line 310:
the same string as `UnvalidatedPositionDetector.id`. -/
def HardcodedInputIndexDetector_id : String := "unvalidated_position"

/-- The rule id `UnvalidatedPositionDetector.detect` puts on its violation
(`anti_pattern_detectors.py` line 146: `rule=f"{self.id}.cash"`). -/
def UnvalidatedPositionDetector_rule : String := UnvalidatedPositionDetector_id ++ ".cash"

/-- The rule id `HardcodedInputIndexDetector.detect` puts on its violation
(`anti_pattern_detectors.py` line 317: `rule=f"{self.id}.cash"`). -/
def HardcodedInputIndexDetector_rule : String := HardcodedInputIndexDetector_id ++ ".cash"

/-- The rule ids emitted by the 19 entries of `DETECTOR_REGISTRY`
(`anti_pattern_detectors.py` lines 586-606), in registry order.  The first
nine detectors append `".cash"` to their id when building the violation; the
last ten use the id verbatim. -/
def DETECTOR_REGISTRY_RULES : List String :=
  ["implicit_output_ordering.cash",
   "missing_output_limit.cash",
   UnvalidatedPositionDetector_rule,
   "fee_assumption_violation.cash",
   "division_by_zero.cash",
   "missing_token_amount_validation.cash",
   "vulnerable_covenant.cash",
   "time_validation_error.cash",
   HardcodedInputIndexDetector_rule,
   "evm_hallucination",
   "empty_function_body",
   "semantic_type_mismatch",
   "multisig_distinctness_flaw",
   "missing_value_enforcement",
   "weak_output_count_limit",
   "missing_output_anchor",
   "tautological_guard",
   "locking_bytecode_self_comparison",
   "multisig_signature_reuse"]

/-- The rule ids collected by `AntiPatternEnforcer.validate_code`
(`anti_pattern_enforcer.py` lines 157-210).  Each registered detector either
returns a violation carrying its fixed rule id or returns `None` (a detector
raising an exception is caught and contributes nothing, like `None`); this is
abstracted by the vector `fired` of per-detector outcomes.  When the
`CashScriptAST` constructor itself raises (`parseOk = false`) the result is the
single synthetic rule `"parse_error"`. -/
def validate_code_rules (parseOk : Bool) (fired : List Bool) : List String :=
  if parseOk then
    ((DETECTOR_REGISTRY_RULES.zip fired).filter (fun p => p.2)).map Prod.fst
  else ["parse_error"]

/-- The structural score computed by `Phase3.validate`
(`pipeline.py` lines 266-270): `failed_count = len(set(v.rule for v in
violations))` and `score = (total_detectors - failed_count) / total_detectors`
with `total_detectors = len(DETECTOR_REGISTRY) = 19`. -/
def phase3_structural_score (violations : List String) : ℚ :=
  let total : ℚ := DETECTOR_REGISTRY_RULES.length
  let failed : ℚ := violations.dedup.length
  if 0 < DETECTOR_REGISTRY_RULES.length then (total - failed) / total else 0

/-- `Phase3.validate`'s structural score as a function of which detectors
fired. -/
def Phase3_validate_score (parseOk : Bool) (fired : List Bool) : ℚ :=
  phase3_structural_score (validate_code_rules parseOk fired)

/-! ## Text-scanning primitives

The Python sources analyse contract text with `re` patterns.  The embedding
works over `List Char` and realises each concrete pattern as a bespoke matcher;
a matcher takes the text at a candidate start position and returns the captured
data together with the unconsumed remainder.  The drivers below reproduce
`re.search` (first match, trying successive start positions) and
`re.findall`/`re.finditer` (non-overlapping matches, resuming after each
match's end).  `\s` is `isPySpace`, `\w` is `isWordChar`, `\d` is `Char.isDigit`;
the analysed sources are ASCII. -/

/-- `\w` (the sources only contain ASCII identifiers). -/
def isWordChar (c : Char) : Bool := c.isAlphanum || c = '_'

/-- Match a literal character. -/
def chr (c : Char) : List Char → Option (List Char)
  | c' :: rest => if c' = c then some rest else none
  | [] => none

/-- Match a literal string. -/
def lit (p : String) (s : List Char) : Option (List Char) :=
  go p.toList s
where
  go : List Char → List Char → Option (List Char)
    | [], s => some s
    | _ :: _, [] => none
    | p :: ps, c :: cs => if c = p then go ps cs else none

/-- Match a literal string case-insensitively (`re.IGNORECASE`). -/
def litIC (p : String) (s : List Char) : Option (List Char) :=
  go p.toList s
where
  go : List Char → List Char → Option (List Char)
    | [], s => some s
    | _ :: _, [] => none
    | p :: ps, c :: cs => if c.toLower = p.toLower then go ps cs else none

/-- `\s*`. -/
def ws0 (s : List Char) : List Char := s.dropWhile isPySpace

/-- `\s+`. -/
def ws1 : List Char → Option (List Char)
  | c :: rest => if isPySpace c then some (rest.dropWhile isPySpace) else none
  | [] => none

/-- `(\w+)`: the (greedy, maximal) word at the current position. -/
def word1 (s : List Char) : Option (List Char × List Char) :=
  let w := s.takeWhile isWordChar
  if w.isEmpty then none else some (w, s.drop w.length)

/-- `(\d+)`, returning the decimal value. -/
def digits1 (s : List Char) : Option (Nat × List Char) :=
  let d := s.takeWhile Char.isDigit
  if d.isEmpty then none
  else some (d.foldl (fun n c => 10 * n + (c.toNat - 48)) 0, s.drop d.length)

/-- `re.search` driver: try the position matcher at each successive start
position (including the empty suffix), with the preceding character supplied
for word-boundary and look-behind tests. -/
def searchCtx {α : Type} (f : Option Char → List Char → Option α) :
    Option Char → List Char → Option α
  | prev, [] => f prev []
  | prev, c :: rest =>
    match f prev (c :: rest) with
    | some a => some a
    | none => searchCtx f (some c) rest

/-- `re.search` driver for patterns with no left-context condition. -/
def search {α : Type} (f : List Char → Option α) (s : List Char) : Option α :=
  searchCtx (fun _ t => f t) none s

/-- Python `pat in s` (also `re.search` of a literal pattern). -/
def containsSub (pat : String) (s : List Char) : Bool :=
  (search (fun t => lit pat t) s).isSome

/-- `containsSub` on `String`. -/
def containsSubS (pat : String) (s : String) : Bool := containsSub pat s.toList

/-- `re.finditer`/`re.findall` driver: collect non-overlapping matches left to
right, resuming after each match's end (a non-consuming match, which none of
the embedded patterns can produce, would fall back to single-step advance).
The fuel argument is initialised to `length + 1`, enough for every run since
each step consumes at least one character. -/
def scanAllCtxAux {α : Type} (f : Option Char → List Char → Option (α × List Char)) :
    Nat → Option Char → List Char → List α
  | 0, _, _ => []
  | _ + 1, prev, [] =>
    match f prev [] with
    | some (a, _) => [a]
    | none => []
  | fuel + 1, prev, c :: rest =>
    match f prev (c :: rest) with
    | some (a, r) =>
      if r.length < (c :: rest).length then
        let consumed := (c :: rest).take ((c :: rest).length - r.length)
        a :: scanAllCtxAux f fuel consumed.getLast? r
      else a :: scanAllCtxAux f fuel (some c) rest
    | none => scanAllCtxAux f fuel (some c) rest

/-- Context-aware `re.finditer` driver. -/
def scanAllCtx {α : Type} (f : Option Char → List Char → Option (α × List Char))
    (s : List Char) : List α :=
  scanAllCtxAux f (s.length + 1) none s

/-- `re.finditer` driver for patterns with no left-context condition. -/
def scanAll {α : Type} (f : List Char → Option (α × List Char)) (s : List Char) : List α :=
  scanAllCtx (fun _ t => f t) s

/-- Python `str.split(sep)` for a single-character separator (structural, so
that concrete runs reduce inside the kernel). -/
def splitOnChar (sep : Char) : List Char → List (List Char)
  | [] => [[]]
  | c :: t =>
    if c = sep then [] :: splitOnChar sep t
    else
      match splitOnChar sep t with
      | [] => [[c]]
      | h :: rest => (c :: h) :: rest

/-- `re.sub(r'//.*', '', ·)`: erase everything from each `//` to the end of
its line.  Fuel-driven; the fuel (initially the text length) dominates the
number of steps because every step consumes at least one character. -/
def removeLineCommentsAux : Nat → List Char → List Char
  | 0, s => s
  | _ + 1, [] => []
  | fuel + 1, '/' :: '/' :: t => removeLineCommentsAux fuel (t.dropWhile (fun c => !(c = '\n')))
  | fuel + 1, c :: t => c :: removeLineCommentsAux fuel t

/-- `re.sub(r'//.*', '', ·)` on a character list. -/
def removeLineComments (s : List Char) : List Char := removeLineCommentsAux s.length s

/-- Scan for the `*/` closing a block comment; `none` when it never closes. -/
def dropUntilClose : List Char → Option (List Char)
  | [] => none
  | '*' :: '/' :: t => some t
  | _ :: t => dropUntilClose t

/-- `re.sub(r'/\*.*?\*/', '', ·, flags=re.DOTALL)`: erase each block comment;
an unclosed `/*` matches nothing and is kept verbatim. -/
def removeBlockCommentsAux : Nat → List Char → List Char
  | 0, s => s
  | _ + 1, [] => []
  | fuel + 1, '/' :: '*' :: t =>
    match dropUntilClose t with
    | some t' => removeBlockCommentsAux fuel t'
    | none => '/' :: removeBlockCommentsAux fuel ('*' :: t)
  | fuel + 1, c :: t => c :: removeBlockCommentsAux fuel t

/-- `re.sub(r'/\*.*?\*/', '', ·, flags=re.DOTALL)` on a character list. -/
def removeBlockComments (s : List Char) : List Char := removeBlockCommentsAux s.length s

/-! ## CashScript fact extractor (`src/utils/cashscript_ast.py`)

`CashScriptAST._parse` (lines 124-229) is embedded for the fact families the
claims under verification consume: function names, `require` validations with
their token-index labels, and arithmetic (division/modulo) operations.  The
families not consumed by any claim here (output references, checkSig calls,
constructor parameters, comparisons, the `is_stateful` flag) are omitted. -/

/-- `Location` (`cashscript_ast.py` lines 16-21).  `_parse` constructs every
statement location as `Location(line=0, column=0, function=func_name)`
(line 164: "Mock line number as 0"). -/
structure Location where
  line : Nat
  column : Nat
  function : String
deriving DecidableEq, Repr

/-- `ValidationCheck` (`cashscript_ast.py` lines 78-90), restricted to the
fields read by the division-guard and token-pair analyses. -/
structure ValidationCheck where
  location : Location
  condition : String
  validates_token_category : Option Nat
  validates_token_amount : Option Nat
deriving DecidableEq, Repr

/-- `ArithmeticOp` (`cashscript_ast.py` lines 93-98). -/
structure ArithmeticOp where
  op : String
  location : Location
  divisor_expression : String
deriving DecidableEq, Repr

/-- The fact set produced by `CashScriptAST._parse`, restricted to the fields
the verified detectors consume. -/
structure CashScriptAST where
  functions : List String
  validations : List ValidationCheck
  arithmetic_ops : List ArithmeticOp
deriving DecidableEq, Repr

/-- Position matcher for `function\s+(\w+)\s*\([^)]*\)\s*\{(.*?)\}` (DOTALL),
`cashscript_ast.py` line 151: captures the function name and the body up to
the first `}`. -/
def matchAstFunction (s : List Char) : Option ((String × String) × List Char) :=
  (lit "function" s).bind fun r1 =>
  (ws1 r1).bind fun r2 =>
  (word1 r2).bind fun (name, r3) =>
  (chr '(' (ws0 r3)).bind fun r4 =>
  let params := r4.takeWhile (fun c => !(c = ')'))
  (chr ')' (r4.drop params.length)).bind fun r5 =>
  (chr '{' (ws0 r5)).bind fun r6 =>
  let body := r6.takeWhile (fun c => !(c = '}'))
  (chr '}' (r6.drop body.length)).bind fun r7 =>
  some ((String.mk name, String.mk body), r7)

/-- Position matcher for `(\w+)\s*([/%])\s*(\w+)` (`cashscript_ast.py`
line 181): a division or modulo with its operands. -/
def matchDivMod (s : List Char) : Option ((String × String × String) × List Char) :=
  (word1 s).bind fun (l, r1) =>
  match ws0 r1 with
  | c :: r2 =>
    if c = '/' || c = '%' then
      (word1 (ws0 r2)).bind fun (rt, r3) =>
      some ((String.mk l, String.singleton c, String.mk rt), r3)
    else none
  | [] => none

/-- For `re.search(r'require\s*\((.*)\)', stmt, re.DOTALL)` (`cashscript_ast.py`
line 189): the greedy `(.*)` runs to the last `)` of the statement. -/
def takeBeforeLastRParen (s : List Char) : Option (List Char) :=
  match s.reverse.dropWhile (fun c => !(c = ')')) with
  | [] => none
  | _ :: tailRev => some tailRev.reverse

/-- Position matcher for `require\s*\((.*)\)` (DOTALL), capturing the
condition text. -/
def matchRequireCondition (s : List Char) : Option (List Char) :=
  (lit "require" s).bind fun r1 =>
  (chr '(' (ws0 r1)).bind fun r2 =>
  takeBeforeLastRParen r2

/-- First match of `tx\.outputs\[(\d+)\]\.<prop>` in a condition
(`cashscript_ast.py` lines 214-224), returning the captured output index. -/
def searchOutputsIndexProp (prop : String) (s : List Char) : Option Nat :=
  search (fun t =>
    (lit "tx.outputs[" t).bind fun r1 =>
    (digits1 r1).bind fun (n, r2) =>
    (lit ("]." ++ prop) r2).map fun _ => n) s

/-- The facts `_parse` extracts from one statement of a function body
(`cashscript_ast.py` lines 158-229, restricted to divisions and `require`
validations).  Every fact's location is `Location(0, 0, func_name)`. -/
def parseStatement (funcName : String) (stmt : String) :
    List ArithmeticOp × List ValidationCheck :=
  let loc : Location := ⟨0, 0, funcName⟩
  let ops := (scanAll matchDivMod stmt.toList).map fun (_, op, rt) =>
    ArithmeticOp.mk op loc rt
  let vals :=
    if containsSub "require(" stmt.toList then
      match search matchRequireCondition stmt.toList with
      | some cond =>
        let condition := pyStrip (String.mk cond)
        [ValidationCheck.mk loc condition
          (searchOutputsIndexProp "tokenCategory" condition.toList)
          (searchOutputsIndexProp "tokenAmount" condition.toList)]
      | none => []
    else []
  (ops, vals)

/-- `CashScriptAST.__init__`/`_parse` (`cashscript_ast.py` lines 108-229):
strip `//` and `/* */` comments, find function blocks, split each body on
`;`, strip each statement, skip empties, and extract the per-statement
facts. -/
def CashScriptAST.parse (code : String) : CashScriptAST :=
  let clean := String.mk (removeBlockComments (removeLineComments code.toList))
  let blocks := scanAll matchAstFunction clean.toList
  blocks.foldl
    (fun ast (block : String × String) =>
      let (funcName, body) := block
      let stmts := (splitOnChar ';' body.toList).map (fun cs => pyStrip (String.mk cs))
        |>.filter (fun st => !(st = ""))
      let facts := stmts.map (parseStatement funcName)
      { functions := ast.functions ++ [funcName]
        validations := ast.validations ++ (facts.map Prod.snd).flatten
        arithmetic_ops := ast.arithmetic_ops ++ (facts.map Prod.fst).flatten })
    ⟨[], [], []⟩

/-- `CashScriptAST.has_unguarded_division` (`cashscript_ast.py` lines 317-331):
a division/modulo is guarded only when some validation in the same function
with a strictly smaller line number contains the divisor text and a `> 0` or
`!= 0` fragment. -/
def CashScriptAST.has_unguarded_division (ast : CashScriptAST) : List ArithmeticOp :=
  ast.arithmetic_ops.filter fun op =>
    (op.op = "/" || op.op = "%") &&
    !(ast.validations.any fun v =>
      v.location.function = op.location.function &&
      v.location.line < op.location.line &&
      containsSubS op.divisor_expression v.condition &&
      (containsSubS "> 0" v.condition || containsSubS "!= 0" v.condition))

/-- `DivisionByZeroDetector.detect` (`anti_pattern_detectors.py` lines 200-225):
fires on the first unguarded division/modulo, whose payload (operator,
location, divisor) fills the violation; `none` when every such operation is
guarded. -/
def DivisionByZeroDetector.detect (ast : CashScriptAST) : Option ArithmeticOp :=
  ast.has_unguarded_division.head?

/-- The output indices with a `tokenCategory` validation
(`cashscript_ast.py` line 335). -/
def CashScriptAST.token_category_indices (ast : CashScriptAST) : Finset Nat :=
  (ast.validations.filterMap (fun v => v.validates_token_category)).toFinset

/-- The output indices with a `tokenAmount` validation
(`cashscript_ast.py` line 336). -/
def CashScriptAST.token_amount_indices (ast : CashScriptAST) : Finset Nat :=
  (ast.validations.filterMap (fun v => v.validates_token_amount)).toFinset

/-- `CashScriptAST.find_token_pair_violations` (`cashscript_ast.py`
lines 333-337): `cats - amts` — the output indices with a `tokenCategory`
validation but no `tokenAmount` validation (a Python set; the list order the
source produces is unspecified, so the embedding keeps the set). -/
def CashScriptAST.find_token_pair_violations (ast : CashScriptAST) : Finset Nat :=
  ast.token_category_indices \ ast.token_amount_indices

/-- `TokenPairValidationDetector.detect` (`anti_pattern_detectors.py`
lines 228-252): fires — reporting an arbitrary element of
`find_token_pair_violations` — exactly when that set is non-empty. -/
def TokenPairValidationDetector.detect (ast : CashScriptAST) : Bool :=
  decide (ast.find_token_pair_violations ≠ ∅)

/-! ## DSL linter (`src/services/dsl_lint.py`)

The linter's violations are embedded as their rule-id strings in emission
order: no claim under verification consumes the `message`/`line_hint`
payloads (`lint` derives `passed` from the violation count, the repair gate
compares rule-id sets), so they are omitted.  Each rule function is total; the
`try/except` wrapper around rules in `DSLLinter.lint` (which skips a raising
rule) never triggers for these total functions. -/

/-- `_lines` (`dsl_lint.py` lines 26-28): 1-indexed `(lineno, line)` pairs.
`str.splitlines()` is `splitOnChar '\n'` up to one trailing empty line when
the text ends in a newline; an empty line matches none of the per-line
patterns, so the rules are unaffected. -/
def lintLines (code : String) : List (Nat × List Char) :=
  (splitOnChar '\n' code.toList).enum.map fun p => (p.1 + 1, p.2)

/-- Number of newline characters in a text. -/
def countNl (s : List Char) : Nat := (s.filter (fun c => c = '\n')).length

/-- For `function\s+(\w+)\s*\(.*?\)\s*\{` (DOTALL, `dsl_lint.py` line 37):
the non-greedy parameter run extends to the first `)` that is followed by
optional whitespace and `{`; returns the text just after that `{`. -/
def findParamClose : List Char → Option (List Char)
  | [] => none
  | ')' :: t =>
    match chr '{' (ws0 t) with
    | some r => some r
    | none => findParamClose t
  | _ :: t => findParamClose t

/-- Position matcher for the linter's function-header pattern
(`dsl_lint.py` line 37), capturing the name and the text after `{`. -/
def matchLintFunctionHeader (s : List Char) : Option (String × List Char) :=
  (lit "function" s).bind fun r1 =>
  (ws1 r1).bind fun r2 =>
  (word1 r2).bind fun (name, r3) =>
  (chr '(' (ws0 r3)).bind fun r4 =>
  (findParamClose r4).map fun afterBrace => (String.mk name, afterBrace)

/-- The brace-depth scan of `_function_bodies` (`dsl_lint.py` lines 41-49):
the body runs from just after `{` to just before the matching `}`.  `none`
when the braces never rebalance — in that case the Python slice
`code[start : i-1]` keeps everything but the final character. -/
def braceScanGo : Nat → List Char → Option (List Char)
  | _, [] => none
  | depth, c :: t =>
    let d' := if c = '{' then depth + 1 else if c = '}' then depth - 1 else depth
    if d' = 0 then some []
    else (braceScanGo d' t).map fun b => c :: b

/-- Body text extraction of `_function_bodies`, including the
unbalanced-brace quirk (`body = code[start : i-1]` with `i = len(code)`). -/
def braceScanBody (s : List Char) : List Char :=
  match braceScanGo 1 s with
  | some b => b
  | none => s.dropLast

/-- `_function_bodies` (`dsl_lint.py` lines 31-52): `(func_name, body,
start_lineno)` triples; `start_lineno` is the newline count before the match
start plus one, and — faithful to `finditer` on a pattern ending at `{` —
scanning for the next header resumes just after the opening brace. -/
def lintFunctionBodiesAux : Nat → Nat → List Char → List (String × List Char × Nat)
  | 0, _, _ => []
  | _ + 1, _, [] => []
  | fuel + 1, nl, c :: rest =>
    match matchLintFunctionHeader (c :: rest) with
    | some (name, afterBrace) =>
      (name, braceScanBody afterBrace, nl + 1) ::
        lintFunctionBodiesAux fuel (nl + (countNl (c :: rest) - countNl afterBrace)) afterBrace
    | none => lintFunctionBodiesAux fuel (nl + if c = '\n' then 1 else 0) rest

/-- `_function_bodies` on a code string. -/
def lintFunctionBodies (code : String) : List (String × List Char × Nat) :=
  lintFunctionBodiesAux (code.toList.length + 1) 0 code.toList

/-- `\b<w>\b` occurrence test. -/
def containsWordB (w : String) (s : List Char) : Bool :=
  (searchCtx (fun prev t =>
    (match prev with | none => some () | some c => if isWordChar c then none else some ()).bind
      fun _ =>
    (lit w t).bind fun r =>
    match r with
    | [] => some ()
    | c :: _ => if isWordChar c then none else some ()) none s).isSome

/-- `len(re.findall(rf"\b{w}\b", s))`. -/
def countWordOccurrences (w : String) (s : List Char) : Nat :=
  (scanAllCtx (fun prev t =>
    (match prev with | none => some () | some c => if isWordChar c then none else some ()).bind
      fun _ =>
    (lit w t).bind fun r =>
    match r with
    | [] => some ((), r)
    | c :: _ => if isWordChar c then none else some ((), r)) s).length

/-- `\b<w>\w*\b` occurrence test, case-insensitive: a word starting with `w`
(the trailing `\w*\b` is always satisfiable by the maximal word run). -/
def containsWordPrefixIC (w : String) (s : List Char) : Bool :=
  (searchCtx (fun prev t =>
    (match prev with | none => some () | some c => if isWordChar c then none else some ()).bind
      fun _ => (litIC w t).map fun _ => ()) none s).isSome

/-- Mode normalisation used by the mode-conditional rules:
`(contract_mode or "").lower().strip()`. -/
def lintNormMode (m : String) : String := pyStrip (pyLower m)

/-- `tx\.inputs\[\s*0\s*\]` (`dsl_lint.py` line 71). -/
def mTxInputs0 (s : List Char) : Option Unit :=
  (lit "tx.inputs[" s).bind fun r =>
  (chr '0' (ws0 r)).bind fun r2 =>
  (chr ']' (ws0 r2)).map fun _ => ()

/-- `this\.activeInputIndex\s*==\s*0` (`dsl_lint.py` line 80). -/
def mActiveInputIndexEq0 (s : List Char) : Option Unit :=
  (lit "this.activeInputIndex" s).bind fun r =>
  (lit "==" (ws0 r)).bind fun r2 =>
  (chr '0' (ws0 r2)).map fun _ => ()

/-- `require\s*\(\s*tx\.outputs\.length\s*(==|>=)\s*(\d+)\s*\)`
(`dsl_lint.py` line 91), capturing the bound. -/
def mOutputsLengthGuard (s : List Char) : Option (Nat × List Char) :=
  (lit "require" s).bind fun r1 =>
  (chr '(' (ws0 r1)).bind fun r2 =>
  (lit "tx.outputs.length" (ws0 r2)).bind fun r3 =>
  (match lit "==" (ws0 r3) with
   | some r => some r
   | none => lit ">=" (ws0 r3)).bind fun r4 =>
  (digits1 (ws0 r4)).bind fun (n, r5) =>
  (chr ')' (ws0 r5)).map fun rest => (n, rest)

/-- `tx\.outputs\[\s*(\d+)\s*\]` (`dsl_lint.py` line 96), capturing the
index. -/
def mOutputsIndexAccess (s : List Char) : Option (Nat × List Char) :=
  (lit "tx.outputs[" s).bind fun r1 =>
  (digits1 (ws0 r1)).bind fun (n, r2) =>
  (chr ']' (ws0 r2)).map fun rest => (n, rest)

/-- `_check_hardcoded_input_index` (`dsl_lint.py` lines 57-111):
LNC-001a per line with a literal `tx.inputs[0]`; LNC-001b per line forcing
`this.activeInputIndex == 0`; LNC-001c per `tx.outputs[N]` access in a
function with no length guard ensuring more than `N` outputs. -/
def check_hardcoded_input_index (code : String) : List String :=
  let lines := lintLines code
  let p1 := lines.filterMap fun p =>
    if (search mTxInputs0 p.2).isSome then some "LNC-001a" else none
  let p2 := lines.filterMap fun p =>
    if (search mActiveInputIndexEq0 p.2).isSome then some "LNC-001b" else none
  let p3 := (lintFunctionBodies code).map (fun fb =>
    let guarded := scanAll mOutputsLengthGuard fb.2.1
    (scanAll mOutputsIndexAccess fb.2.1).filterMap fun idx =>
      if guarded.any (fun g => idx < g) then none else some "LNC-001c")
  p1 ++ p2 ++ p3.flatten

/-- The type alternation of the LNC-002 declaration pattern
`(?:int|bool|bytes(?:\d*)?|pubkey|sig)` (`dsl_lint.py` line 122; the
alternatives have no common prefix, so ordered first-match is faithful). -/
def mVarDeclType (s : List Char) : Option (List Char) :=
  match lit "int" s with
  | some r => some r
  | none =>
  match lit "bool" s with
  | some r => some r
  | none =>
  match lit "bytes" s with
  | some r => some (r.dropWhile Char.isDigit)
  | none =>
  match lit "pubkey" s with
  | some r => some r
  | none => lit "sig" s

/-- `^\s*(?:int|bool|bytes(?:\d*)?|pubkey|sig)(?:\[\])?\s+(\w+)\s*=`
(re.MULTILINE, `dsl_lint.py` line 123): a declaration anchored at a line
start, capturing the declared name. -/
def mVarDecl (prev : Option Char) (s : List Char) : Option (String × List Char) :=
  (match prev with
   | none => some ()
   | some c => if c = '\n' then some () else none).bind fun _ =>
  (mVarDeclType (ws0 s)).bind fun r1 =>
  let r1' := match lit "[]" r1 with | some r => r | none => r1
  (ws1 r1').bind fun r2 =>
  (word1 r2).bind fun (name, r3) =>
  (chr '=' (ws0 r3)).map fun rest => (String.mk name, rest)

/-- `_check_unused_variables` (`dsl_lint.py` lines 114-138): LNC-002 for every
declared local whose name occurs at most once (its declaration) in the
function body. -/
def check_unused_variables (code : String) : List String :=
  ((lintFunctionBodies code).map fun fb =>
    (scanAllCtx mVarDecl fb.2.1).filterMap fun nm =>
      if countWordOccurrences nm fb.2.1 ≤ 1 then some "LNC-002" else none).flatten

/-- `require\s*\(\s*tx\.outputs\.length\s*==` (`dsl_lint.py` line 166). -/
def mOutputsLengthEqStart (s : List Char) : Option Unit :=
  (lit "require" s).bind fun r1 =>
  (chr '(' (ws0 r1)).bind fun r2 =>
  (lit "tx.outputs.length" (ws0 r2)).bind fun r3 =>
  (lit "==" (ws0 r3)).map fun _ => ()

/-- The LNC-003 direct value anchor
`require\s*\(\s*tx\.outputs\[\d+\]\.value\s*==\s*tx\.inputs\[this\.activeInputIndex\]\.value\s*\)`
(`dsl_lint.py` line 175). -/
def mDirectAnchor (s : List Char) : Option Unit :=
  (lit "require" s).bind fun r1 =>
  (chr '(' (ws0 r1)).bind fun r2 =>
  (lit "tx.outputs[" (ws0 r2)).bind fun r3 =>
  (digits1 r3).bind fun (_, r4) =>
  (lit "].value" r4).bind fun r5 =>
  (lit "==" (ws0 r5)).bind fun r6 =>
  (lit "tx.inputs[this.activeInputIndex].value" (ws0 r6)).bind fun r7 =>
  (chr ')' (ws0 r7)).map fun _ => ()

/-- The LNC-003 sum-preservation anchor (`dsl_lint.py` line 182). -/
def mSumAnchor (s : List Char) : Option Unit :=
  (lit "require" s).bind fun r1 =>
  (chr '(' (ws0 r1)).bind fun r2 =>
  (lit "tx.outputs[" (ws0 r2)).bind fun r3 =>
  (digits1 r3).bind fun (_, r4) =>
  (lit "].value" r4).bind fun r5 =>
  (chr '+' (ws0 r5)).bind fun r6 =>
  (lit "tx.outputs[" (ws0 r6)).bind fun r7 =>
  (digits1 r7).bind fun (_, r8) =>
  (lit "].value" r8).bind fun r9 =>
  (lit "==" (ws0 r9)).bind fun r10 =>
  (lit "tx.inputs[this.activeInputIndex].value" (ws0 r10)).bind fun r11 =>
  (chr ')' (ws0 r11)).map fun _ => ()

/-- `_check_value_anchoring` (`dsl_lint.py` lines 141-197): skipped for modes
`multisig`/`timelock`/`stateless`/empty; otherwise LNC-003 for every function
that guards `tx.outputs.length ==` without a direct or sum value anchor. -/
def check_value_anchoring (code : String) (contract_mode : String) : List String :=
  let mode := lintNormMode contract_mode
  if mode = "multisig" || mode = "timelock" || mode = "stateless" || mode = "" then []
  else
    ((lintFunctionBodies code).map fun fb =>
      if (search mOutputsLengthEqStart fb.2.1).isSome then
        if (search mDirectAnchor fb.2.1).isSome || (search mSumAnchor fb.2.1).isSome then []
        else ["LNC-003"]
      else []).flatten

/-- `tx\.outputs\[\d+\]` (`dsl_lint.py` line 218). -/
def mOutputsIndexTight (s : List Char) : Option Unit :=
  (lit "tx.outputs[" s).bind fun r1 =>
  (digits1 r1).bind fun (_, r2) =>
  (chr ']' r2).map fun _ => ()

/-- `_check_implicit_output_ordering` (`dsl_lint.py` lines 200-224): LNC-004
for every line outside all function bodies that indexes `tx.outputs`. -/
def check_implicit_output_ordering (code : String) : List String :=
  let bodies := lintFunctionBodies code
  let insideLines : List Nat := (bodies.map fun fb =>
    (List.range (countNl fb.2.1 + 2)).map fun off => fb.2.2 + off).flatten
  (lintLines code).filterMap fun p =>
    if insideLines.contains p.1 then none
    else if (search mOutputsIndexTight p.2).isSome then some "LNC-004" else none

/-- `(?:\.value|inputValue|input_value)\s*-` (`dsl_lint.py` line 235). -/
def mFeeValueMinus (s : List Char) : Option Unit :=
  (match lit ".value" s with
   | some r => some r
   | none =>
   match lit "inputValue" s with
   | some r => some r
   | none => lit "input_value" s).bind fun r =>
  (chr '-' (ws0 r)).map fun _ => ()

/-- The fee-word alternation `fee|miner_?fee|tx_?fee|satoshis_?fee` of
`dsl_lint.py` line 246 (case-insensitive). -/
def mFeeWord (s : List Char) : Option (List Char) :=
  let opt := fun (w : String) (t : List Char) =>
    (litIC w t).bind fun r =>
    litIC "fee" (match chr '_' r with | some r2 => r2 | none => r)
  match litIC "fee" s with
  | some r => some r
  | none =>
  match opt "miner" s with
  | some r => some r
  | none =>
  match opt "tx" s with
  | some r => some r
  | none => opt "satoshis" s

/-- `\-\s*(?:fee|miner_?fee|tx_?fee|satoshis_?fee)\b` (IGNORECASE,
`dsl_lint.py` line 246). -/
def mFeeWordMinus (s : List Char) : Option Unit :=
  (chr '-' s).bind fun r =>
  (mFeeWord (ws0 r)).bind fun r2 =>
  match r2 with
  | [] => some ()
  | c :: _ => if isWordChar c then none else some ()

/-- `_check_fee_arithmetic` (`dsl_lint.py` lines 227-253): LNC-005 per line
for each of the two fee patterns. -/
def check_fee_arithmetic (code : String) : List String :=
  ((lintLines code).map fun p =>
    (if (search mFeeValueMinus p.2).isSome then ["LNC-005"] else []) ++
    (if (search mFeeWordMinus p.2).isSome then ["LNC-005"] else [])).flatten

/-- `_check_wrong_self_reference` (`dsl_lint.py` lines 256-272): LNC-006 per
line containing `this.lockingBytecode`. -/
def check_wrong_self_reference (code : String) : List String :=
  (lintLines code).filterMap fun p =>
    if containsSub "this.lockingBytecode" p.2 then some "LNC-006" else none

/-- `tx\.inputs\[i\]\.time\b` (`dsl_lint.py` line 281). -/
def mInputsITime (s : List Char) : Option Unit :=
  (lit "tx.inputs[i].time" s).bind fun r =>
  match r with
  | [] => some ()
  | c :: _ => if isWordChar c then none else some ()

/-- `tx\.locktime\b` (`dsl_lint.py` line 282). -/
def mTxLocktime (s : List Char) : Option Unit :=
  (lit "tx.locktime" s).bind fun r =>
  match r with
  | [] => some ()
  | c :: _ => if isWordChar c then none else some ()

/-- `new\s+Sig\s*\(` (`dsl_lint.py` line 284). -/
def mNewSigCall (s : List Char) : Option Unit :=
  (lit "new" s).bind fun r1 =>
  (ws1 r1).bind fun r2 =>
  (lit "Sig" r2).bind fun r3 =>
  (chr '(' (ws0 r3)).map fun _ => ()

/-- `_check_deprecated_patterns` (`dsl_lint.py` lines 275-294): LNC-007 per
line per deprecated pattern, in source order. -/
def check_deprecated_patterns (code : String) : List String :=
  ((lintLines code).map fun p =>
    (if (search mInputsITime p.2).isSome then ["LNC-007"] else []) ++
    (if (search mTxLocktime p.2).isSome then ["LNC-007"] else []) ++
    (if containsWordB "checkDataSig" p.2 then ["LNC-007"] else []) ++
    (if (search mNewSigCall p.2).isSome then ["LNC-007"] else [])).flatten

/-- `require\s*\((.*?)\)` (`dsl_lint.py` line 308): non-greedy inner text up
to the first `)`. -/
def mRequireInnerNG (s : List Char) : Option (List Char × List Char) :=
  (lit "require" s).bind fun r1 =>
  (chr '(' (ws0 r1)).bind fun r2 =>
  let inner := r2.takeWhile (fun c => !(c = ')'))
  (chr ')' (r2.drop inner.length)).map fun rest => (inner, rest)

/-- `re.fullmatch(r"\s*tx\.(time|age)\s*>=\s*[\w\d_]+\s*", inner)`
(`dsl_lint.py` line 314). -/
def timelockStandaloneOk (inner : List Char) : Bool :=
  (Option.isSome <|
    (lit "tx." (ws0 inner)).bind fun r1 =>
    (match lit "time" r1 with
     | some r => some r
     | none => lit "age" r1).bind fun r2 =>
    (lit ">=" (ws0 r2)).bind fun r3 =>
    (word1 (ws0 r3)).bind fun (_, r4) =>
    match ws0 r4 with
    | [] => some ()
    | _ :: _ => none)

/-- `_check_timelock_standalone` (`dsl_lint.py` lines 297-325): LNC-010 for
every `require(...)` whose condition mentions `tx.time`/`tx.age` but is not a
standalone `tx.time >= X` / `tx.age >= X`. -/
def check_timelock_standalone (code : String) : List String :=
  ((lintFunctionBodies code).map fun fb =>
    (scanAll mRequireInnerNG fb.2.1).filterMap fun inner =>
      if containsSub "tx.time" inner || containsSub "tx.age" inner then
        if timelockStandaloneOk inner then none else some "LNC-010"
      else none).flatten

/-- `\b(\w+)\s*/\s*(\w+)\b` (`dsl_lint.py` line 346), capturing numerator and
divisor (the trailing `\b` is granted by the maximal word run). -/
def mLintDivision (prev : Option Char) (s : List Char) :
    Option ((String × String) × List Char) :=
  (match prev with
   | none => some ()
   | some c => if isWordChar c then none else some ()).bind fun _ =>
  (word1 s).bind fun (w1, r1) =>
  (chr '/' (ws0 r1)).bind fun r2 =>
  (word1 (ws0 r2)).map fun (w2, r3) => ((String.mk w1, String.mk w2), r3)

/-- `require\s*\(\s*<divisor>\s*>\s*0\s*\)` (`dsl_lint.py` line 354). -/
def mDivisorGuard (divisor : String) (s : List Char) : Option Unit :=
  (lit "require" s).bind fun r1 =>
  (chr '(' (ws0 r1)).bind fun r2 =>
  (lit divisor (ws0 r2)).bind fun r3 =>
  (chr '>' (ws0 r3)).bind fun r4 =>
  (chr '0' (ws0 r4)).bind fun r5 =>
  (chr ')' (ws0 r5)).map fun _ => ()

/-- Python `str.isdigit` on an identifier. -/
def pyIsDigitStr (w : String) : Bool :=
  !w.toList.isEmpty && w.toList.all Char.isDigit

/-- `_check_division_guard` (`dsl_lint.py` lines 328-367): LNC-011 for every
identifier-by-identifier division (comments stripped) whose divisor is not a
numeric literal and has no `require(divisor > 0)` guard in the body. -/
def check_division_guard (code : String) : List String :=
  ((lintFunctionBodies code).map fun fb =>
    let bodyNC := removeLineComments fb.2.1
    (scanAllCtx mLintDivision bodyNC).filterMap fun d =>
      if pyIsDigitStr d.2 then none
      else if (search (mDivisorGuard d.2) bodyNC).isSome then none
      else some "LNC-011").flatten

/-- `hash160\s*\(`. -/
def mHash160Paren (s : List Char) : Option Unit :=
  (lit "hash160" s).bind fun r => (chr '(' (ws0 r)).map fun _ => ()

/-- `bytes\s*concat\s*\(`. -/
def mBytesConcatParen (s : List Char) : Option Unit :=
  (lit "bytes" s).bind fun r1 =>
  (lit "concat" (ws0 r1)).bind fun r2 =>
  (chr '(' (ws0 r2)).map fun _ => ()

/-- `new\s+bytes`. -/
def mNewBytes (s : List Char) : Option Unit :=
  (lit "new" s).bind fun r1 =>
  (ws1 r1).bind fun r2 =>
  (lit "bytes" r2).map fun _ => ()

/-- The state-mutation evidence pattern
`LockingBytecodeP2SH|hash160\s*\(|bytes\s*concat\s*\(|new\s+bytes`
(`dsl_lint.py` lines 555-558). -/
def hasNewBytecodeConstruction (code : List Char) : Bool :=
  containsSub "LockingBytecodeP2SH" code ||
  (search mHash160Paren code).isSome ||
  (search mBytesConcatParen code).isSome ||
  (search mNewBytes code).isSome

/-- `_check_frozen_state` (`dsl_lint.py` lines 527-573, rule LNC-012): for
contract modes `stateful`/`vesting`, a contract that self-anchors via
`this.activeBytecode` but shows no new-locking-bytecode construction receives
the frozen-state finding (the source annotates it `"severity": "warning"`,
a field nothing downstream reads). -/
def check_frozen_state (code : String) (contract_mode : String) : List String :=
  let mode := lintNormMode contract_mode
  if !(mode = "stateful" || mode = "vesting") then []
  else if !containsSub "this.activeBytecode" code.toList then []
  else if hasNewBytecodeConstruction code.toList then []
  else ["LNC-012"]

/-- The non-greedy bracket of
`tx\.outputs\[.*?\]\.lockingBytecode\s*==\s*this\.activeBytecode`
(`dsl_lint.py` line 435): scan (without crossing a newline, as `.` does not
match one) for a `]` whose continuation matches. -/
def mSelfAnchorAfterBracket : List Char → Option Unit
  | [] => none
  | '\n' :: _ => none
  | ']' :: t =>
    match
      (lit ".lockingBytecode" t).bind fun r =>
      (lit "==" (ws0 r)).bind fun r2 =>
      (lit "this.activeBytecode" (ws0 r2)).map fun _ => ()
    with
    | some _ => some ()
    | none => mSelfAnchorAfterBracket t
  | _ :: t => mSelfAnchorAfterBracket t

/-- `tx\.outputs\[.*?\]\.lockingBytecode\s*==\s*this\.activeBytecode`. -/
def mOutputsSelfAnchor (s : List Char) : Option Unit :=
  (lit "tx.outputs[" s).bind fun r => mSelfAnchorAfterBracket r

/-- `tx\.inputs\[.*?\]\.lockingBytecode\s*==\s*this\.activeBytecode`
(`dsl_lint.py` line 440). -/
def mInputsSelfAnchor (s : List Char) : Option Unit :=
  (lit "tx.inputs[" s).bind fun r => mSelfAnchorAfterBracket r

/-- `tx\.outputs\b` (`dsl_lint.py` line 427). -/
def mTxOutputsB (s : List Char) : Option Unit :=
  (lit "tx.outputs" s).bind fun r =>
  match r with
  | [] => some ()
  | c :: _ => if isWordChar c then none else some ()

/-- `\b(?:tokenCategory|tokenAmount)\b` (`dsl_lint.py` lines 413/428). -/
def containsTokenRefWord (s : List Char) : Bool :=
  (searchCtx (fun prev t =>
    (match prev with
     | none => some ()
     | some c => if isWordChar c then none else some ()).bind fun _ =>
    (match lit "tokenCategory" t with
     | some r => some r
     | none => lit "tokenAmount" t).bind fun r =>
    match r with
    | [] => some ()
    | c :: _ => if isWordChar c then none else some ()) none s).isSome

/-- `_check_covenant_self_anchor` (`dsl_lint.py` lines 370-455, rule LNC-008):
exit modes must not self-anchor; stateless modes are skipped; continuation
modes (and unknown modes showing covenant features) require a
`lockingBytecode == this.activeBytecode` anchor in every function touching
outputs or tokens, except `burn*` functions of `token` contracts. -/
def check_covenant_self_anchor (code : String) (contract_mode : String) : List String :=
  let mode := lintNormMode contract_mode
  if mode = "distribution" || mode = "payout" || mode = "split" || mode = "burn" then
    if containsSub "this.activeBytecode" code.toList then ["LNC-008"] else []
  else if mode = "multisig" || mode = "multisig_simple_spend" || mode = "p2pkh" ||
      mode = "stateless" || mode = "timelock" || mode = "escrow" || mode = "" then []
  else
    let requireMode := mode = "vesting" || mode = "stateful" || mode = "covenant" ||
      mode = "vault" || mode = "token" || mode = "minting"
    let fallbackSkip :=
      if !requireMode then
        !(containsTokenRefWord code.toList || containsSub "this.activeBytecode" code.toList)
      else false
    if fallbackSkip then []
    else
      ((lintFunctionBodies code).map fun fb =>
        if mode = "token" && containsWordPrefixIC "burn" fb.1.toList then []
        else
          let touchesOutputs := (search mTxOutputsB fb.2.1).isSome
          let touchesTokens := containsTokenRefWord fb.2.1
          if !(touchesOutputs || touchesTokens) then []
          else if (search mOutputsSelfAnchor fb.2.1).isSome ||
              (search mInputsSelfAnchor fb.2.1).isSome then []
          else ["LNC-008"]).flatten

/-- `checkSig\s*\([^,]+,\s*mintAuthority\s*\)` (`dsl_lint.py` line 608). -/
def mCheckSigMintAuthority (s : List Char) : Option Unit :=
  (lit "checkSig" s).bind fun r1 =>
  (chr '(' (ws0 r1)).bind fun r2 =>
  let arg1 := r2.takeWhile (fun c => !(c = ','))
  if arg1.isEmpty then none else
  (chr ',' (r2.drop arg1.length)).bind fun r3 =>
  (lit "mintAuthority" (ws0 r3)).bind fun r4 =>
  (chr ')' (ws0 r4)).map fun _ => ()

/-- `_check_mint_authority` (`dsl_lint.py` lines 576-622, rule LNC-013): in
`token`/`minting` mode, every `mint*` function must come with a
`mintAuthority` constructor parameter and a matching `checkSig`. -/
def check_mint_authority (code : String) (contract_mode : String) : List String :=
  let mode := lintNormMode contract_mode
  if !(mode = "token" || mode = "minting") then []
  else if !containsWordPrefixIC "mint" code.toList then []
  else
    ((lintFunctionBodies code).map fun fb =>
      if !containsWordPrefixIC "mint" fb.1.toList then []
      else
        let hasParam := containsWordB "mintAuthority" code.toList
        let hasSig := (search mCheckSigMintAuthority fb.2.1).isSome
        if hasParam && hasSig then [] else ["LNC-013"]).flatten

/-- `\.tokenCategory\b` / `\.tokenAmount\b` (`dsl_lint.py` lines 637-638). -/
def mDotTokenProp (prop : String) (s : List Char) : Option Unit :=
  (lit ("." ++ prop) s).bind fun r =>
  match r with
  | [] => some ()
  | c :: _ => if isWordChar c then none else some ()

/-- `_check_token_pair_completeness` (`dsl_lint.py` lines 625-665, rule
LNC-014): a function referencing one of `tokenCategory`/`tokenAmount` but not
the other gets one finding. -/
def check_token_pair_completeness (code : String) : List String :=
  ((lintFunctionBodies code).map fun fb =>
    let refCat := (search (mDotTokenProp "tokenCategory") fb.2.1).isSome
    let refAmt := (search (mDotTokenProp "tokenAmount") fb.2.1).isSome
    if !(refCat || refAmt) then []
    else if refCat && !refAmt then ["LNC-014"]
    else if refAmt && !refCat then ["LNC-014"]
    else []).flatten

/-- `re.sub(r"//.*$", "", line)` on a single line. -/
def cutLineComment : List Char → List Char
  | [] => []
  | '/' :: '/' :: _ => []
  | c :: t => c :: cutLineComment t

/-- Python `str.startswith`. -/
def startsWithL (p : String) (s : String) : Bool := (lit p s.toList).isSome

/-- `\b\w+\s*\?\s*[^:]+:\s*[^;{}\n]+` (`dsl_lint.py` line 473).  Since `\s`
(minus `\n`) and every space are inside `[^:]` and `[^;{}\n]`, the pattern
matches iff after `word\s*?` at least one non-colon character precedes the
next `:`, and after that `:` whitespace leads (possibly across `\n`) to a
character outside `;{}`. -/
def ternaryTailOk : List Char → Bool
  | [] => false
  | c :: t =>
    if c = '\n' then ternaryTailOk t
    else !(c = ';' || c = '{' || c = '}')

/-- Position matcher for the full ternary pattern (`dsl_lint.py` line 473). -/
def mTernaryFull (prev : Option Char) (s : List Char) : Option Unit :=
  (match prev with
   | none => some ()
   | some c => if isWordChar c then none else some ()).bind fun _ =>
  (word1 s).bind fun (_, r1) =>
  (chr '?' (ws0 r1)).bind fun r2 =>
  let mid := r2.takeWhile (fun c => !(c = ':'))
  if mid.isEmpty then none else
  (chr ':' (r2.drop mid.length)).bind fun r3 =>
  if ternaryTailOk r3 then some () else none

/-- `(?<![!=<>?])\?(?!\?)` (`dsl_lint.py` line 476). -/
def mBareQuestion (prev : Option Char) (s : List Char) : Option Unit :=
  match s with
  | '?' :: t =>
    let okL := match prev with
      | none => true
      | some c => !(c = '!' || c = '=' || c = '<' || c = '>' || c = '?')
    let okR := match t with
      | [] => true
      | c :: _ => !(c = '?')
    if okL && okR then some () else none
  | _ => none

/-- `(?<![=!<>])<op>=` for the compound-assignment bans
(`dsl_lint.py` lines 480-486). -/
def mCompoundAssign (op : Char) (prev : Option Char) (s : List Char) : Option Unit :=
  match s with
  | c1 :: '=' :: _ =>
    if c1 = op then
      match prev with
      | none => some ()
      | some c => if c = '=' || c = '!' || c = '<' || c = '>' then none else some ()
    else none
  | _ => none

/-- `(?<!-)--(?!-)` (`dsl_lint.py` line 490). -/
def mDecrement (prev : Option Char) (s : List Char) : Option Unit :=
  match s with
  | '-' :: '-' :: t =>
    let okL := match prev with | none => true | some c => !(c = '-')
    let okR := match t with | [] => true | c :: _ => !(c = '-')
    if okL && okR then some () else none
  | _ => none

/-- `\b<kw>\s*\(` for the control-flow bans (`dsl_lint.py` lines 493-504). -/
def mKwParen (kw : String) (prev : Option Char) (s : List Char) : Option Unit :=
  (match prev with
   | none => some ()
   | some c => if isWordChar c then none else some ()).bind fun _ =>
  (lit kw s).bind fun r =>
  (chr '(' (ws0 r)).map fun _ => ()

/-- `_check_forbidden_syntax` (`dsl_lint.py` lines 458-524, rule LNC-009):
per line (full-comment lines skipped, inline comments stripped), one finding
per matching forbidden pattern, in the source's pattern order. -/
def check_forbidden_syntax (code : String) : List String :=
  ((lintLines code).map fun p =>
    if startsWithL "//" (pyStrip (String.mk p.2)) then []
    else
      let cp := cutLineComment p.2
      let hits : List Bool :=
        [(searchCtx mTernaryFull none cp).isSome,
         (searchCtx mBareQuestion none cp).isSome,
         (searchCtx (mCompoundAssign '+') none cp).isSome,
         (searchCtx (mCompoundAssign '-') none cp).isSome,
         (searchCtx (mCompoundAssign '*') none cp).isSome,
         (searchCtx (mCompoundAssign '/') none cp).isSome,
         containsSub "++" cp,
         (searchCtx mDecrement none cp).isSome,
         (searchCtx (mKwParen "for") none cp).isSome,
         (searchCtx (mKwParen "while") none cp).isSome,
         (searchCtx (mKwParen "switch") none cp).isSome,
         containsWordB "return" cp,
         (searchCtx (mKwParen "if") none cp).isSome,
         containsWordB "else" cp]
      (hits.filter id).map fun _ => "LNC-009").flatten

/-- The lint result of `DSLLinter.lint` (`dsl_lint.py` lines 695-737),
violations kept as rule ids. -/
structure LintOutcome where
  passed : Bool
  violations : List String
deriving DecidableEq, Repr

/-- `DSLLinter.lint` (`dsl_lint.py` lines 670-737): empty input fails with
LNC-000; otherwise all rules run in `RULES` order over the source (rules
taking a `contract_mode` receive it) and `passed` holds iff no rule produced
a violation — the LNC-012 "warning" counts like every other violation. -/
def DSLLinter.lint (code : String) (contract_mode : String) : LintOutcome :=
  if code = "" || pyStrip code = "" then ⟨false, ["LNC-000"]⟩
  else
    let vs :=
      check_hardcoded_input_index code ++
      check_unused_variables code ++
      check_value_anchoring code contract_mode ++
      check_implicit_output_ordering code ++
      check_fee_arithmetic code ++
      check_wrong_self_reference code ++
      check_deprecated_patterns code ++
      check_timelock_standalone code ++
      check_division_guard code ++
      check_frozen_state code contract_mode ++
      check_covenant_self_anchor code contract_mode ++
      check_mint_authority code contract_mode ++
      check_token_pair_completeness code ++
      check_forbidden_syntax code
    ⟨vs.isEmpty, vs⟩

/-! ## Repair agent (`src/services/repair_agent.py`) -/

/-- `RepairAgent._count_requires` (`repair_agent.py` lines 25-26):
`len(re.findall(r"\brequire\s*\(", code))`. -/
def RepairAgent.count_requires (code : String) : Nat :=
  (scanAllCtx (fun prev t =>
    (match prev with
     | none => some ()
     | some c => if isWordChar c then none else some ()).bind fun _ =>
    (lit "require" t).bind fun r =>
    (chr '(' (ws0 r)).map fun rest => ((), rest)) code.toList).length

/-- `RepairResponse` from `src/models.py`. -/
structure RepairResponse where
  corrected_code : String
  success : Bool
deriving DecidableEq, Repr

/-- The attempt loop of `RepairAgent.repair` (`repair_agent.py` lines 115-179).
The source builds a fixed three-tier attempt list (fast configuration twice,
escalated once); `attempts` carries each tier's post-processed oracle output
(`None` for a failed call, as `_attempt_repair` returns).  Per attempt: an
empty/missing draft is skipped; the only deterministic gate run is the DSL
lint comparison — an attempt is rejected exactly when
`set(new rule ids) - set(original rule ids)` is non-empty (lines 139-153,
with `linter.lint(code)` called with the default empty contract mode) — and an
accepted attempt returns immediately with `success=True`.  Exhaustion returns
the original code with `success=False`.  `original_require_count` is computed
at line 73 but never consulted by any gate. -/
def RepairAgent.repair (attempts : List (Option String)) (original_code : String) :
    RepairResponse :=
  match attempts with
  | [] => ⟨original_code, false⟩
  | none :: rest => RepairAgent.repair rest original_code
  | some corrected :: rest =>
    if corrected = "" then RepairAgent.repair rest original_code
    else
      let new_ids := (DSLLinter.lint corrected "").violations
      let orig_ids := (DSLLinter.lint original_code "").violations
      let added := new_ids.filter fun r => !(orig_ids.contains r)
      if added.isEmpty then ⟨corrected, true⟩
      else RepairAgent.repair rest original_code

/-- Original contract for the repair-gate experiment: two `require`
statements, lint-clean in the repair gate's (modeless) lint run. -/
def repairOriginal : String :=
  "pragma cashscript ^0.13.0;\ncontract C(pubkey pk)\x7b\n    function spend(sig s)\x7b\n        require(checkSig(s, pk));\n        require(tx.time >= t);\n    \x7d\n\x7d"

/-- A "repair" of `repairOriginal` that deletes the `require(tx.time >= t)`
guard statement — one fewer guard, still lint-clean. -/
def repairCorrected : String :=
  "pragma cashscript ^0.13.0;\ncontract C(pubkey pk)\x7b\n    function spend(sig s)\x7b\n        require(checkSig(s, pk));\n    \x7d\n\x7d"

/-! ## Guarded synthesis orchestrator (`src/services/pipeline_engine.py`)

`GuardedPipelineEngine.generate_guarded` orchestrates external collaborators
(the generation oracle, the language guard, the DSL linter, the compiler
service, the toll gate, the sanity checker).  The embedding parameterises the
engine over all of them, so the control-flow theorems quantify over every
possible collaborator behaviour — the embedded `DSLLinter.lint` and
`Phase3_validate_score` among them.  Oracle calls (`Phase2.run` drafts and
`_request_syntax_fix` repairs) receive a call-sequence number so that
successive calls of the nondeterministic LLM may return different texts. -/

/-- The structured compiler error (`compiler.py`), restricted to the fields
the engine reads. -/
structure CompileError where
  type : String
  token : String
  raw : String
deriving DecidableEq, Repr

/-- The compiler service's result (`compiler.py` lines 85-91). -/
structure CompileResult where
  success : Bool
  error : CompileError
deriving DecidableEq, Repr

/-- `TollGateResult` (`src/models.py`), violations kept as rule-id strings. -/
structure TollGateResult where
  passed : Bool
  violations : List String
deriving DecidableEq, Repr

/-- The engine's collaborators:
`gen` is `Phase2.run` (call number, violation context);
`guard` is `LanguageGuard.validate` (failure reason or `None`);
`lint` is `DSLLinter.lint` (code, contract mode);
`compile` is the compiler service;
`fix` is `_request_syntax_fix` (call number, code, structured error);
`toll` is `Phase3.validate`; `sanity` is the sanity checker's success bit;
`mode` is the contract mode derived from the intent model (line 71-74). -/
structure PipelineOracles where
  gen : Nat → Option (List String) → String
  guard : String → Option String
  lint : String → String → LintOutcome
  compile : String → CompileResult
  fix : Nat → String → CompileError → String
  toll : String → TollGateResult
  sanity : String → Bool
  mode : String

/-- How one outer generation attempt ends. -/
inductive AttemptOutcome where
  | guardFail (msg : String)
  | lintExhausted
  | compileExhausted
  | tollFail (violations : List String)
  | sanityFail
  | success (code : String)
deriving DecidableEq, Repr

/-- `true` exactly for a toll-gate failure. -/
def AttemptOutcome.isTollFail : AttemptOutcome → Bool
  | .tollFail _ => true
  | _ => false

/-- The lint retry loop (step 2B.5, `pipeline_engine.py` lines 89-125): up to
`max_lint_retries = 3` lint runs over the current draft; a failing run that is
not the last regenerates the draft with the lint violations as context;
returns the final draft, the last lint result, and the updated call counter. -/
def lintLoop (o : PipelineOracles) : Nat → Nat → String → String × LintOutcome × Nat
  | 0, k, code => (code, o.lint code o.mode, k)
  | 1, k, code => (code, o.lint code o.mode, k)
  | n + 2, k, code =>
    let r := o.lint code o.mode
    if r.passed then (code, r, k)
    else lintLoop o (n + 1) (k + 1) (o.gen k (some r.violations))

/-- The compile-fix loop (step 2C, `pipeline_engine.py` lines 128-153): up to
`max_fix_retries = 3` compiles; each failure records the raw error as
`last_error` and rewrites the draft through the deterministic-then-oracle fix
helper; returns the final draft, the success flag, the final `last_error`,
and the updated call counter. -/
def compileLoop (o : PipelineOracles) :
    Nat → Nat → String → String → String × Bool × String × Nat
  | 0, k, code, lastErr => (code, false, lastErr, k)
  | n + 1, k, code, lastErr =>
    let r := o.compile code
    if r.success then (code, true, lastErr, k)
    else compileLoop o n (k + 1) (o.fix k code r.error) r.error.raw

/-- The result of one outer generation attempt. -/
structure AttemptResult where
  outcome : AttemptOutcome
  lastError : String
  calls : Nat
deriving DecidableEq, Repr

/-- One outer generation attempt (`pipeline_engine.py` lines 66-194):
draft → language guard → lint loop (3) → compile loop (3) → toll gate →
sanity check.  `last_error` is reset to `""` when the compile stage is
reached (line 130) and keeps its incoming value when an earlier stage
aborts the attempt. -/
def runAttempt (o : PipelineOracles) (k : Nat) (prev : Option (List String))
    (lastErr : String) : AttemptResult :=
  let code := o.gen k prev
  let k1 := k + 1
  match o.guard code with
  | some msg => ⟨.guardFail msg, lastErr, k1⟩
  | none =>
    let lintStep := lintLoop o 3 k1 code
    if !lintStep.2.1.passed then ⟨.lintExhausted, lastErr, lintStep.2.2⟩
    else
      let compStep := compileLoop o 3 lintStep.2.2 lintStep.1 ""
      if !compStep.2.1 then ⟨.compileExhausted, compStep.2.2.1, compStep.2.2.2⟩
      else
        let tg := o.toll compStep.1
        if !tg.passed then ⟨.tollFail tg.violations, compStep.2.2.1, compStep.2.2.2⟩
        else if !(o.sanity compStep.1) then ⟨.sanityFail, compStep.2.2.1, compStep.2.2.2⟩
        else ⟨.success compStep.1, compStep.2.2.1, compStep.2.2.2⟩

/-- The violation context the engine hands to the next outer attempt:
`previous_violations` becomes the toll gate's violations on a toll-gate
failure (`pipeline_engine.py` line 168) and is reset to `None` on a
language-guard trip (line 84), lint-loop exhaustion (line 119), compile-loop
exhaustion (line 158) and sanity failure (line 178). -/
def contextAfter : AttemptOutcome → Option (List String)
  | .tollFail vs => some vs
  | _ => none

/-- The engine's final result (`pipeline_engine.py` lines 183-204). -/
inductive GenResult where
  | success (code : String)
  | error (code : String) (message : String) (lastCompilerError : String)
deriving DecidableEq, Repr

/-- The outer generation loop (`for gen_attempt in range(max_gen_retries)`,
`pipeline_engine.py` lines 66-204), paired with the trace of per-attempt
outcomes (the engine's notification/log stream).  Exhaustion returns the
`generation_exhausted` error carrying the last compiler error seen. -/
def genLoop (o : PipelineOracles) :
    Nat → Nat → Option (List String) → String → GenResult × List AttemptOutcome
  | 0, _, _, lastErr =>
    (.error "generation_exhausted"
      "Guarded pipeline failed to converge after multiple attempts." lastErr, [])
  | r + 1, k, prev, lastErr =>
    let a := runAttempt o k prev lastErr
    match a.outcome with
    | .success code => (.success code, [.success code])
    | out =>
      let rest := genLoop o r a.calls (contextAfter out) a.lastError
      (rest.1, out :: rest.2)

/-- The generation phase of `GuardedPipelineEngine.generate_guarded`
(`max_gen_retries = 2`, line 61; initial `last_error = "None"`, line 62; no
initial violation context, line 63). -/
def generate_guarded (o : PipelineOracles) : GenResult × List AttemptOutcome :=
  genLoop o 2 0 none "None"

/-- A collaborator stub: every draft passes the language guard, lint and
compilation, and always trips the toll gate with one fixed violation. -/
def stubOracles : PipelineOracles where
  gen := fun _ _ => "draft"
  guard := fun _ => none
  lint := fun _ _ => ⟨true, []⟩
  compile := fun _ => ⟨true, ⟨"", "", ""⟩⟩
  fix := fun _ c _ => c
  toll := fun _ => ⟨false, ["missing_output_limit.cash"]⟩
  sanity := fun _ => true
  mode := ""

/-- Concrete contract whose function `f` validates `require(b > 0)` textually
before computing `a / b` in the same function — by the specification the
division detector must not flag it. -/
def srcDivGuarded : String :=
  "contract C()\x7bfunction f(int a,int b)\x7brequire(b > 0);require(a / b == 2);\x7d\x7d"

/-- Concrete contract whose function `g` validates `tokenAmount` for output 0
and never validates `tokenCategory` — by the specification the token-pair
detector must flag index 0. -/
def srcTokenAmountOnly : String :=
  "contract T()\x7bfunction g()\x7brequire(tx.outputs[0].tokenAmount == 5);\x7d\x7d"

/-- Concrete stateful vault: self-anchoring via `this.activeBytecode`, output
count guarded, value anchored, no new-bytecode construction — its only lint
finding in `stateful` mode is the frozen-state warning LNC-012. -/
def srcFrozenVault : String :=
  "contract V(pubkey p)\x7bfunction f(sig s)\x7brequire(checkSig(s,p));require(tx.outputs.length == 1);require(tx.outputs[0].lockingBytecode == this.activeBytecode);require(tx.outputs[0].value == tx.inputs[this.activeInputIndex].value);\x7d\x7d"

end NexOps

namespace NexOps

/-! ## Theorems about the scoring engine -/

/-- **C1.** For every list of issues and every combination of the other scoring
inputs: the deterministic bucket is `max 0 (70 - Σ per-severity penalties over
the rule-id-deduplicated issues)` when compilation succeeded and `0` when it
failed; the displayed total equals `max 20 (deterministic + semantic)`; and
`deploymentAllowed` holds iff `deterministic ≥ 50`, `semantic > 0` and
`displayed ≥ 75`. -/
theorem audit_report_deterministic_bucket_and_gate
    (issues : List AuditIssue) (compile_success dsl_passed : Bool)
    (structural_score : ℚ) (semantic_category : String) (business_logic_score : Int) :
    let rep := calculate_audit_report issues compile_success dsl_passed
      structural_score semantic_category business_logic_score
    rep.deterministic_score =
      (if compile_success then
        max 0 (DET_MAX - ((dedupeIssues issues).map (fun i => DET_PENALTIES i.severity)).sum)
       else 0) ∧
    rep.total_score = max 20 (rep.deterministic_score + rep.semantic_score) ∧
    (rep.deployment_allowed = true ↔
      rep.deterministic_score ≥ 50 ∧ rep.semantic_score > 0 ∧ rep.total_score ≥ 75) := by
  refine ⟨?_, ?_, ?_⟩
  · cases compile_success <;> simp [calculate_audit_report]
  · simp [calculate_audit_report, DISPLAY_FLOOR]
  · simp [calculate_audit_report, DISPLAY_FLOOR, and_assoc]

/-- **C2.** With semantic category `"funds_unspendable"` the semantic bucket is
exactly `0` whatever the business-logic sub-score and the other inputs, and
deployment is refused even with a perfect deterministic bucket; with each other
known category the semantic bucket is `min 30 (category points + business-logic
score clamped to [0,10])`. -/
theorem audit_report_funds_unspendable_override
    (issues : List AuditIssue) (compile_success dsl_passed : Bool)
    (structural_score : ℚ) (business_logic_score : Int) :
    let rep := calculate_audit_report issues compile_success dsl_passed
      structural_score "funds_unspendable" business_logic_score
    rep.semantic_score = 0 ∧
    rep.deployment_allowed = false ∧
    (∀ b : Int,
      semanticScore "none" b = min 30 (20 + max 0 (min 10 b)) ∧
      semanticScore "minor_design_risk" b = min 30 (15 + max 0 (min 10 b)) ∧
      semanticScore "moderate_logic_risk" b = min 30 (10 + max 0 (min 10 b)) ∧
      semanticScore "major_protocol_flaw" b = min 30 (5 + max 0 (min 10 b))) := by
  refine ⟨?_, ?_, ?_⟩
  · simp [calculate_audit_report, semanticScore, normaliseCategory, pyStrip, pyLower,
      ALLOWED_CATEGORIES, SEMANTIC_CATEGORY_MAP, isPySpace]
  · simp [calculate_audit_report, semanticScore, normaliseCategory, pyStrip, pyLower,
      ALLOWED_CATEGORIES, SEMANTIC_CATEGORY_MAP, isPySpace]
  · intro b
    refine ⟨?_, ?_, ?_, ?_⟩ <;>
      simp [semanticScore, normaliseCategory, pyStrip, pyLower,
        ALLOWED_CATEGORIES, SEMANTIC_CATEGORY_MAP, isPySpace, List.lookup]

/-- **C10.** Every semantic-category string whose stripped-and-lowercased form
is not one of the five known categories — the empty string included — is
silently normalised to `"none"` and awarded the maximal 20 category points:
the semantic bucket equals `min 30 (20 + clamped business-logic score)`. -/
theorem audit_report_unknown_category_normalises_to_none
    (issues : List AuditIssue) (compile_success dsl_passed : Bool)
    (structural_score : ℚ) (semantic_category : String) (business_logic_score : Int)
    (h : ¬ ALLOWED_CATEGORIES.contains
      (if semantic_category = "" then "none"
       else pyLower (pyStrip semantic_category)) = true ∨ semantic_category = "") :
    let rep := calculate_audit_report issues compile_success dsl_passed
      structural_score semantic_category business_logic_score
    rep.semantic_category = "none" ∧
    rep.semantic_score = min 30 (20 + max 0 (min 10 business_logic_score)) := by
  have hnorm : normaliseCategory semantic_category = "none" := by
    rcases h with h | h
    · unfold normaliseCategory
      simp only []
      rw [if_neg h]
    · subst h
      simp [normaliseCategory, ALLOWED_CATEGORIES, SEMANTIC_CATEGORY_MAP]
  refine ⟨?_, ?_⟩
  · simpa [calculate_audit_report] using hnorm
  · simp only [calculate_audit_report, semanticScore, hnorm]
    simp [SEMANTIC_CATEGORY_MAP, List.lookup]

/-- Witness for C10 at the concrete unknown category `"garbage"`. -/
theorem audit_report_unknown_category_witness :
    (calculate_audit_report [] true true 1 "garbage" 7).semantic_category = "none" ∧
    (calculate_audit_report [] true true 1 "garbage" 7).semantic_score =
      min 30 (20 + max 0 (min 10 (7 : Int))) :=
  audit_report_unknown_category_normalises_to_none [] true true 1 "garbage" 7
    (Or.inl (by decide))

/-! ## Theorems about the toll-gate structural score -/

/-- Helper: the rule ids collected by the enforcer on a parsed source are
drawn from the registry's fixed rule-id list. -/
theorem validate_code_rules_subset (fired : List Bool) :
    validate_code_rules true fired ⊆ DETECTOR_REGISTRY_RULES := by
  intro a ha
  unfold validate_code_rules at ha
  rw [if_pos rfl] at ha
  obtain ⟨⟨x, b⟩, hp, rfl⟩ := List.mem_map.mp ha
  exact (List.of_mem_zip (List.mem_filter.mp hp).1).1

/-- **C9.** The registry has 19 detectors; `UnvalidatedPositionDetector` and
`HardcodedInputIndexDetector` emit the identical rule id
`"unvalidated_position.cash"`, so the registry's rule ids have only 18
distinct values; consequently, whichever detectors fire, the toll gate's
structural score — which counts distinct failed rule ids — is at least `1/19`
and never reaches `0` (the same bound holds in the `parse_error` branch). -/
theorem toll_gate_structural_score_floor :
    DETECTOR_REGISTRY_RULES.length = 19 ∧
    UnvalidatedPositionDetector_rule = HardcodedInputIndexDetector_rule ∧
    DETECTOR_REGISTRY_RULES.dedup.length = 18 ∧
    ∀ (parseOk : Bool) (fired : List Bool),
      1 / 19 ≤ Phase3_validate_score parseOk fired ∧
      0 < Phase3_validate_score parseOk fired := by
  refine ⟨rfl, rfl, by decide, ?_⟩
  intro parseOk fired
  have hmain : 1 / 19 ≤ Phase3_validate_score parseOk fired := by
    cases parseOk with
    | false =>
      show (1 : ℚ) / 19 ≤ phase3_structural_score ["parse_error"]
      norm_num [phase3_structural_score, DETECTOR_REGISTRY_RULES,
        UnvalidatedPositionDetector_rule, HardcodedInputIndexDetector_rule,
        UnvalidatedPositionDetector_id, HardcodedInputIndexDetector_id]
    | true =>
      have hsub : (validate_code_rules true fired).dedup ⊆ DETECTOR_REGISTRY_RULES :=
        fun a ha => validate_code_rules_subset fired (List.dedup_subset _ ha)
      have hnodup : (validate_code_rules true fired).dedup.Nodup := List.nodup_dedup _
      have hfin : (validate_code_rules true fired).dedup.toFinset ⊆
          DETECTOR_REGISTRY_RULES.toFinset := by
        intro x hx
        rw [List.mem_toFinset] at hx ⊢
        exact hsub hx
      have hcard : (validate_code_rules true fired).dedup.length ≤ 18 := by
        have h1 : (validate_code_rules true fired).dedup.toFinset.card =
            (validate_code_rules true fired).dedup.length :=
          List.toFinset_card_of_nodup hnodup
        have h2 : DETECTOR_REGISTRY_RULES.toFinset.card = 18 := by decide
        have := Finset.card_le_card hfin
        omega
      have htot : DETECTOR_REGISTRY_RULES.length = 19 := rfl
      show 1 / 19 ≤ phase3_structural_score (validate_code_rules true fired)
      unfold phase3_structural_score
      rw [if_pos (by rw [htot]; norm_num)]
      rw [htot]
      have hfq : ((validate_code_rules true fired).dedup.length : ℚ) ≤ 18 := by
        exact_mod_cast hcard
      rw [div_le_div_iff₀ (by norm_num) (by norm_num)]
      push_cast
      linarith
  exact ⟨hmain, lt_of_lt_of_le (by norm_num) hmain⟩

/-! ## Theorems about the division-guard and token-pair detectors -/

/-- **C4.** On `srcDivGuarded` the parser records the validation `b > 0`
(same function `f`, containing the divisor and a `> 0` fragment) textually
before the division `a / b`, yet `DivisionByZeroDetector.detect` still fires
on that division: `_parse` gives every statement `line = 0`, so the
"textually preceding" test `v.location.line < op.location.line` in
`has_unguarded_division` is always false and no guard ever suppresses the
flag — contradicting the claim that a guarded division never flags. -/
theorem division_detector_flags_despite_preceding_guard :
    (CashScriptAST.parse srcDivGuarded).validations =
      [⟨⟨0, 0, "f"⟩, "b > 0", none, none⟩,
       ⟨⟨0, 0, "f"⟩, "a / b == 2", none, none⟩] ∧
    DivisionByZeroDetector.detect (CashScriptAST.parse srcDivGuarded) =
      some ⟨"/", ⟨0, 0, "f"⟩, "b"⟩ := by
  constructor <;> decide

/-- **C6 counterexample.** On `srcTokenAmountOnly` the only validation labels
output 0 with a `tokenAmount` check and no `tokenCategory` check, yet the
token-pair detector does not fire: `find_token_pair_violations` is only
`cats - amts`, never the symmetric difference, so the claimed
"vice versa" direction is false. -/
theorem token_pair_detector_ignores_amount_without_category :
    (CashScriptAST.parse srcTokenAmountOnly).validations =
      [⟨⟨0, 0, "g"⟩, "tx.outputs[0].tokenAmount == 5", none, some 0⟩] ∧
    TokenPairValidationDetector.detect (CashScriptAST.parse srcTokenAmountOnly) = false := by
  constructor <;> decide

/-- **C6 (amended).** For every fact set: the token-pair detector's violation
set contains exactly the output indices with a `tokenCategory` validation and
no `tokenAmount` validation (hence an index validating both is never flagged,
and an index with only a `tokenAmount` validation is never flagged), and the
detector fires exactly when that set is non-empty. -/
theorem token_pair_detector_category_minus_amount (ast : CashScriptAST) :
    (∀ i, i ∈ ast.find_token_pair_violations ↔
      i ∈ ast.token_category_indices ∧ i ∉ ast.token_amount_indices) ∧
    (TokenPairValidationDetector.detect ast = true ↔
      ast.find_token_pair_violations ≠ ∅) := by
  constructor
  · intro i
    exact Finset.mem_sdiff
  · simp [TokenPairValidationDetector.detect]

/-! ## Theorems about the repair gate and the lint gate -/

/-- **C3.** The repair validation accepts an attempt whose corrected code has
strictly fewer guard (`require`) statements than the original: on the
concrete pair, the corrected code drops one of two `require` statements,
introduces no new lint-rule id, and the repair loop returns it with
`success = true` on the first tier — the documented guard-count gate is never
consulted (`original_require_count` is computed and unused). -/
theorem repair_gate_accepts_dropped_require :
    RepairAgent.count_requires repairOriginal = 2 ∧
    RepairAgent.count_requires repairCorrected = 1 ∧
    RepairAgent.repair [some repairCorrected, none, none] repairOriginal =
      ⟨repairCorrected, true⟩ := by
  refine ⟨by decide, by decide, by decide⟩

/-- **C5.** On the concrete stateful vault the frozen-state rule is the only
rule that fires, and `DSLLinter.lint` then returns `passed = false`: the
LNC-012 finding counts like every other violation in
`passed = len(all_violations) == 0`, so a lint run whose only finding is the
frozen-state warning fails the lint gate, contrary to the claim that the
warning is non-blocking. -/
theorem frozen_state_warning_blocks_lint :
    check_frozen_state srcFrozenVault "stateful" = ["LNC-012"] ∧
    DSLLinter.lint srcFrozenVault "stateful" = ⟨false, ["LNC-012"]⟩ := by
  refine ⟨by decide, by decide⟩

/-! ## Theorems about the guarded synthesis orchestrator -/

/-- **C7.** In the outer generation loop, the accumulated violation context is
carried into the next attempt only after a toll-gate failure (it becomes that
failure's violation list), and every other attempt failure — language-guard
trip, lint-loop exhaustion, compile-loop exhaustion, sanity failure — resets
the context to `none` before the next attempt. -/
theorem violation_context_carried_only_after_toll_failure
    (o : PipelineOracles) (r k : Nat) (prev : Option (List String)) (lastErr : String) :
    (∀ vs, (runAttempt o k prev lastErr).outcome = .tollFail vs →
      genLoop o (r + 1) k prev lastErr =
        ((genLoop o r (runAttempt o k prev lastErr).calls (some vs)
            (runAttempt o k prev lastErr).lastError).1,
          AttemptOutcome.tollFail vs ::
            (genLoop o r (runAttempt o k prev lastErr).calls (some vs)
              (runAttempt o k prev lastErr).lastError).2)) ∧
    (∀ out, (runAttempt o k prev lastErr).outcome = out →
      ((∃ msg, out = .guardFail msg) ∨ out = .lintExhausted ∨
        out = .compileExhausted ∨ out = .sanityFail) →
      genLoop o (r + 1) k prev lastErr =
        ((genLoop o r (runAttempt o k prev lastErr).calls none
            (runAttempt o k prev lastErr).lastError).1,
          out :: (genLoop o r (runAttempt o k prev lastErr).calls none
            (runAttempt o k prev lastErr).lastError).2)) := by
  constructor
  · intro vs h
    simp only [genLoop, h, contextAfter]
  · intro out hout hcase
    rcases hcase with ⟨msg, rfl⟩ | rfl | rfl | rfl <;>
      simp only [genLoop, hout, contextAfter]

/-- Witness for C7: on the stub collaborators the first attempt ends in a
toll-gate failure and its violations are carried as the next attempt's
context. -/
theorem violation_context_witness :
    genLoop stubOracles 1 0 none "None" =
      ((genLoop stubOracles 0 1 (some ["missing_output_limit.cash"]) "").1,
        AttemptOutcome.tollFail ["missing_output_limit.cash"] ::
          (genLoop stubOracles 0 1 (some ["missing_output_limit.cash"]) "").2) := by
  have hcalls : (runAttempt stubOracles 0 none "None").calls = 1 := by decide
  have herr : (runAttempt stubOracles 0 none "None").lastError = "" := by decide
  have h := (violation_context_carried_only_after_toll_failure stubOracles 0 0 none
    "None").1 ["missing_output_limit.cash"] (by decide)
  rw [hcalls, herr] at h
  exact h

/-- **C8.** If every oracle draft passes the language guard, the lint stage
and compilation but always trips the toll gate, the generation loop
terminates after exactly the configured `max_gen_retries = 2` outer attempts
— both of which end in toll-gate failures — and returns the
`generation_exhausted` error carrying the last compiler error seen (the empty
string, since every compile succeeded). -/
theorem generation_exhausted_after_two_attempts (o : PipelineOracles)
    (h : ∀ k ctx,
      o.guard (o.gen k ctx) = none ∧
      (o.lint (o.gen k ctx) o.mode).passed = true ∧
      (o.compile (o.gen k ctx)).success = true ∧
      (o.toll (o.gen k ctx)).passed = false) :
    (generate_guarded o).1 =
      GenResult.error "generation_exhausted"
        "Guarded pipeline failed to converge after multiple attempts." "" ∧
    (generate_guarded o).2.length = 2 ∧
    (generate_guarded o).2.all AttemptOutcome.isTollFail = true := by
  have hA : ∀ k ctx e, runAttempt o k ctx e =
      ⟨.tollFail (o.toll (o.gen k ctx)).violations, "", k + 1⟩ := by
    intro k ctx e
    obtain ⟨hg, hl, hc, ht⟩ := h k ctx
    simp only [runAttempt, lintLoop, compileLoop, hg, hl, hc, ht, Bool.not_true,
      Bool.not_false, if_true, if_false, Bool.false_eq_true, ite_true, ite_false]
  have h0 := hA 0 none "None"
  have h1 := hA 1 (some ((o.toll (o.gen 0 none)).violations)) ""
  refine ⟨?_, ?_, ?_⟩ <;>
    simp [generate_guarded, genLoop, h0, h1, contextAfter, AttemptOutcome.isTollFail]

/-- Witness for C8: the stub collaborators satisfy the hypothesis, and the
loop ends in `generation_exhausted` after two toll-failed attempts. -/
theorem generation_exhausted_witness :
    (generate_guarded stubOracles).1 =
      GenResult.error "generation_exhausted"
        "Guarded pipeline failed to converge after multiple attempts." "" ∧
    (generate_guarded stubOracles).2.length = 2 ∧
    (generate_guarded stubOracles).2.all AttemptOutcome.isTollFail = true :=
  generation_exhausted_after_two_attempts stubOracles
    (fun _ _ => ⟨rfl, rfl, rfl, rfl⟩)

end NexOps
